import Mathlib

/-!
Shallow embedding of the idrd detection-and-synchronization engine:
the provider selector (ip/dynamic.go, DynamicProvider.GetIP), the
monitoring scheduler (cmd/idrd main.go, monitorIP), the Cloudflare DNS
synchronizer (dns/cloudflare.go) and the WebSocket event hub
(server/websocket.go).  Go maps/slices become Lean lists, machine
integers become Nat (durations are whole seconds), remote calls are
oracles passed in explicitly, and each stateful loop becomes a pure
function from its inputs to the list of effects it performs.
-/

namespace IDRD

/-! ## Configuration data model (config/config.go) -/

/-- One entry of cfg.IPProviders: Type discriminates the concrete
provider ("stun", "router_ssh", ...), Enabled gates it.  The free-form
Properties map only feeds provider instantiation, which the discovery
oracle absorbs, so it is not carried here. -/
structure IPProviderConfig where
  type : String
  enabled : Bool
  deriving Repr, DecidableEq

/-- One zone of a Cloudflare account: zone_name plus its record names. -/
structure Zone where
  zoneName : String
  records : List String
  deriving Repr, DecidableEq

/-- One entry of cfg.CloudflareAccounts. -/
structure CloudflareAccount where
  name : String
  apiToken : String
  zones : List Zone
  deriving Repr, DecidableEq

/-! ## Provider selector (ip/dynamic.go) -/

/-- Result triple of a concrete provider's GetIP() call:
(ip, source, err).  err = none is Go's nil error. -/
structure DiscoverResult where
  ip : String
  source : String
  err : Option String
  deriving Repr, DecidableEq

/-- The kinds the switch in DynamicProvider.GetIP instantiates; every
other kind falls into the default branch and is skipped. -/
def knownKind (t : String) : Bool :=
  t == "stun" || t == "router_ssh"

/-- The labelled error string accumulated per failed provider:
fmt.Sprintf("[%s] 获取失败: %v", pCfg.Type, err). -/
def labeledError (t msg : String) : String :=
  "[" ++ t ++ "] 获取失败: " ++ msg

/-- Outcome of DynamicProvider.GetIP: first success, or the aggregate
all-providers-failed error carrying the labelled failures, or the
distinct no-provider-enabled error. -/
inductive GetIPResult where
  | success (ip source : String)
  | allFailed (errors : List String)
  | noProviderEnabled
  deriving Repr, DecidableEq

/-- The loop body of DynamicProvider.GetIP with its errors accumulator.
discover is the behaviour of the provider instantiated from a config
entry (the switch plus p.GetIP()). -/
def DynamicProvider.getIPLoop (discover : IPProviderConfig → DiscoverResult) :
    List IPProviderConfig → List String → GetIPResult
  | [], errors =>
      if errors.length > 0 then .allFailed errors else .noProviderEnabled
  | pCfg :: rest, errors =>
      if !pCfg.enabled then
        DynamicProvider.getIPLoop discover rest errors
      else if !knownKind pCfg.type then
        -- default branch of the switch: continue
        DynamicProvider.getIPLoop discover rest errors
      else
        let r := discover pCfg
        if r.err.isNone && r.ip != "" then
          .success r.ip (if r.source == "" then pCfg.type else r.source)
        else
          match r.err with
          | some msg =>
              DynamicProvider.getIPLoop discover rest
                (errors ++ [labeledError pCfg.type msg])
          | none =>
              -- err == nil but ip == "": nothing appended, keep going
              DynamicProvider.getIPLoop discover rest errors

/-- DynamicProvider.GetIP over a configuration's provider list. -/
def DynamicProvider.GetIP (discover : IPProviderConfig → DiscoverResult)
    (providers : List IPProviderConfig) : GetIPResult :=
  DynamicProvider.getIPLoop discover providers []

/-- The labelled failures of the providers the loop actually attempts
(enabled, recognized kind) and that return an error, in declaration
order. -/
def attemptErrors (discover : IPProviderConfig → DiscoverResult)
    (providers : List IPProviderConfig) : List String :=
  (providers.filter
      (fun q => q.enabled && knownKind q.type && (discover q).err.isSome)).map
    (fun q => labeledError q.type (((discover q).err).getD ""))

/-! ## Monitoring scheduler (cmd/idrd main.go, monitorIP) -/

/-- The kinds monitorIP lets poll every second
(p.Type == "router_ssh" || p.Type == "interface"). -/
def introspectionKind (t : String) : Bool :=
  t == "router_ssh" || t == "interface"

/-- The minimum interval monitorIP computes: 30s by default, 1s as soon
as some enabled provider has an introspection kind (the loop breaks at
the first such provider, which equals an any-test). Seconds. -/
def minIntervalFor (providers : List IPProviderConfig) : Nat :=
  if providers.any (fun p => p.enabled && introspectionKind p.type) then 1 else 30

/-- The check interval monitorIP actually uses, in seconds.
ipCheckParsed is some d when cfg.Intervals.IPCheck is non-empty and
time.ParseDuration succeeds on it, none otherwise; in the none case the
5-minute default stands and the minimum-interval clamp is skipped. -/
def checkIntervalSeconds (ipCheckParsed : Option Nat)
    (providers : List IPProviderConfig) : Nat :=
  match ipCheckParsed with
  | none => 300
  | some d =>
      let minInterval := minIntervalFor providers
      if d < minInterval then minInterval else d

/-- Modelled from the spec: the Effective Poll Interval the spec derives,
max(configured_interval, minimum_interval_for_active_provider_kind),
with the reflection (STUN) variant's minimum 30s and the introspection
(router SSH) variant's minimum 1s.  Stated to be compared with the
source's checkIntervalSeconds. -/
def specEffectiveInterval (configured : Nat) (activeKind : String) : Nat :=
  max configured (if activeKind == "router_ssh" then 1 else 30)

/-- The observable effects one iteration of monitorIP performs, in
program order. -/
inductive MonitorAction where
  | setLastCheck
  | setCurrentIP (ip : String)
  | setCurrentSource (source : String)
  | addIPHistory (ip version source : String)
  | updateDNS (ip : String)
  | logDNSFailure (err : String)
  | broadcastIPChange (ip source : String)
  | addErrorLog (level msg : String)
  | sleepCooldown
  deriving Repr, DecidableEq

/-- The error string carried by a failed GetIP outcome (the %v the log
and AddErrorLog interpolate). -/
def GetIPResult.errString : GetIPResult → Option String
  | .success _ _ => none
  | .allFailed errors =>
      some ("所有启用的 IP 提供者均获取失败: " ++ String.intercalate " " errors)
  | .noProviderEnabled => some "没有启用的 IP 提供者"

/-- One iteration of monitorIP's for-loop after the interval
computation: the effects performed and the new lastIP.  updateIPFn is
updater.UpdateIP's returned error for a given IP. -/
def monitorCycle (updateIPFn : String → Option String)
    (res : GetIPResult) (lastIP : String) : List MonitorAction × String :=
  match res.errString with
  | some e =>
      ([.setLastCheck, .addErrorLog "error" ("获取 IP 失败: " ++ e), .sleepCooldown],
       lastIP)
  | none =>
      match res with
      | .success currentIP source =>
          let pre := [MonitorAction.setLastCheck, .setCurrentIP currentIP,
                      .setCurrentSource source]
          if currentIP != lastIP then
            let dnsActs := match updateIPFn currentIP with
              | some e => [MonitorAction.updateDNS currentIP, .logDNSFailure e]
              | none => [MonitorAction.updateDNS currentIP]
            (pre ++ [MonitorAction.addIPHistory currentIP "v4" source] ++ dnsActs,
             currentIP)
          else
            (pre, lastIP)
      | _ => ([], lastIP)  -- unreachable: errString is none only on success

/-! ## Configuration-change signal (server.go ConfigUpdateChan, monitorIP select) -/

/-- ConfigUpdateChan is make(chan struct{}, 1). -/
def configUpdateChanCap : Nat := 1

/-- handleUpdateConfig's notification: select { case ch <- struct{}{}:
default: } on the capacity-1 channel — enqueue when a slot is free,
silently drop otherwise; the sender never blocks.  The state is the
number of pending signals. -/
def signalConfigUpdate (pending : Nat) : Nat :=
  if pending < configUpdateChanCap then pending + 1 else pending

/-- monitorIP's wait: select over time.NewTimer(checkInterval) and
ConfigUpdateChan.  Returns the instant (seconds into the wait) at which
the next Checking phase starts: a signal delivered at t before the
timer fires ends the wait at t, otherwise the full interval elapses. -/
def waitingPhase (interval : Nat) (signalAt : Option Nat) : Nat :=
  match signalAt with
  | some t => if t < interval then t else interval
  | none => interval

/-! ## DNS synchronizer (dns/cloudflare.go)

Durations are whole seconds; the per-zone context is the 60s timeout of
context.WithTimeout, modelled as a second budget that the backoff waits
consume (the API calls' own latency is not modelled).  Remote behaviour
is an oracle per attempt. -/

/-- maxRetries = 3. -/
def maxRetriesN : Nat := 3

/-- initialBackoff = 1 * time.Second. -/
def initialBackoffS : Nat := 1

/-- maxBackoff = 10 * time.Second. -/
def maxBackoffS : Nat := 10

/-- The 60s context.WithTimeout each zone's work runs under. -/
def zoneBudgetS : Nat := 60

/-- What a run of one of the retry wrappers did: its final result, the
backoff waits it completed (seconds, in order), and whether the run
ended because the context deadline cut a wait short. -/
structure RetryOutcome (α : Type) where
  result : Except String α
  waits : List Nat
  ctxAborted : Bool
  deriving Repr

/-- The retry loop shared by getZoneIDWithRetry and
updateRecordWithRetry: for attempt := 0; attempt <= maxRetries;
attempt++ { if attempt > 0 { select ctx.Done / time.After(backoff);
backoff = min(backoff*2, maxBackoff) }; call; return on success }.
fuel is the number of attempts still allowed; a wait whose backoff
exceeds the remaining budget is abandoned early with the context's
error.  waits is accumulated reversed. -/
def retryGo {α : Type} (call : Nat → Except String α) :
    Nat → Nat → Nat → Nat → List Nat → String → RetryOutcome α
  | _, 0, _, _, waits, lastErr =>
      ⟨.error ("重试 " ++ toString maxRetriesN ++ " 次后仍失败: " ++ lastErr),
       waits.reverse, false⟩
  | attempt, fuel + 1, backoff, budget, waits, _lastErr =>
      if attempt == 0 then
        match call attempt with
        | .ok v => ⟨.ok v, waits.reverse, false⟩
        | .error e => retryGo call (attempt + 1) fuel backoff budget waits e
      else
        if budget < backoff then
          ⟨.error "context deadline exceeded", waits.reverse, true⟩
        else
          let budgetLeft := budget - backoff
          let backoffNext := min (backoff * 2) maxBackoffS
          match call attempt with
          | .ok v => ⟨.ok v, (backoff :: waits).reverse, false⟩
          | .error e =>
              retryGo call (attempt + 1) fuel backoffNext budgetLeft
                (backoff :: waits) e

/-- getZoneIDWithRetry: zoneCall attempt is api.ZoneIDByName's result on
that attempt. -/
def CloudflareUpdater.getZoneIDWithRetry (zoneCall : Nat → Except String String)
    (budget : Nat) : RetryOutcome String :=
  retryGo zoneCall 0 (maxRetriesN + 1) initialBackoffS budget [] ""

/-- A remote A record as ListDNSRecords returns it: ID, Content and the
Proxied flag the update must preserve. -/
structure DNSRecord where
  id : String
  content : String
  proxied : Bool
  deriving Repr, DecidableEq

/-- A mutating Cloudflare call issued by updateRecord. -/
inductive DNSMutation where
  | createRecord (domain ip : String)
  | updateRecord (id domain ip : String) (proxied : Bool)
  deriving Repr, DecidableEq

/-- The remote API's behaviour for one updateRecord attempt: the
listing's outcome and the error, if any, of a create or update call. -/
structure RecordAPIEnv where
  listResult : Except String (List DNSRecord)
  createErr : Option String
  updateErr : Option String
  deriving Repr

/-- CloudflareUpdater.updateRecord (single attempt): list existing A
records at the name; none → create (TTL auto, Proxied false); first
record already at ip → skip, nil error, no call; otherwise update
record[0] in place preserving its Proxied flag.  Returns the mutating
calls issued and the attempt's error. -/
def CloudflareUpdater.updateRecord (env : RecordAPIEnv) (domain ip : String) :
    List DNSMutation × Option String :=
  match env.listResult with
  | .error e => ([], some e)
  | .ok [] =>
      ([.createRecord domain ip], env.createErr)
  | .ok (record :: _) =>
      if record.content == ip then
        ([], none)  -- IP 未变化，跳过 Cloudflare 更新
      else
        ([.updateRecord record.id domain ip record.proxied], env.updateErr)

/-- The remote state transition updateRecord causes at one record name
when every API call succeeds: the mutations issued and the record list
afterwards (newId is the id the remote side assigns to a created
record). -/
def applyUpdateRecord (records : List DNSRecord) (domain ip newId : String) :
    List DNSMutation × List DNSRecord :=
  match records with
  | [] => ([.createRecord domain ip], [⟨newId, ip, false⟩])
  | record :: rest =>
      if record.content == ip then
        ([], record :: rest)
      else
        ([.updateRecord record.id domain ip record.proxied],
         { record with content := ip } :: rest)

/-- CloudflareUpdater.updateRecordWithRetry: retries updateRecord under
the shared loop; an attempt fails when updateRecord reports an error. -/
def CloudflareUpdater.updateRecordWithRetry (envs : Nat → RecordAPIEnv)
    (domain ip : String) (budget : Nat) : RetryOutcome (List DNSMutation) :=
  retryGo
    (fun attempt =>
      let r := CloudflareUpdater.updateRecord (envs attempt) domain ip
      match r.2 with
      | none => .ok r.1
      | some e => .error e)
    0 (maxRetriesN + 1) initialBackoffS budget [] ""

/-- What claim C6 asserts of one retry wrapper run under a given
context budget: at most maxRetries completed backoff waits, the waits
being a prefix of 1s, 2s, 4s (so starting at initialBackoff, doubling
capped at maxBackoff, strictly increasing, each within the cap), and a
deadline abort happening exactly out of a wait the remaining budget
could not cover. -/
def retrySpec {α : Type} (o : RetryOutcome α) (budget : Nat) : Prop :=
  (o.waits = [] ∨ o.waits = [1] ∨ o.waits = [1, 2] ∨ o.waits = [1, 2, 4]) ∧
  o.waits.length ≤ maxRetriesN ∧
  (∀ w ∈ o.waits, initialBackoffS ≤ w ∧ w ≤ maxBackoffS) ∧
  o.waits.Chain' (fun a b => b = min (a * 2) maxBackoffS) ∧
  o.waits.Chain' (· < ·) ∧
  (o.ctxAborted = true →
    o.waits.sum ≤ budget ∧
    budget < o.waits.sum + min (2 ^ o.waits.length) maxBackoffS)

/-- One row handed to the dns_updates audit store by
DB.AddDNSUpdate(accountName, ip, recordType, domain, success, error). -/
structure DNSUpdateEntry where
  accountName : String
  ip : String
  recordType : String
  domain : String
  success : Bool
  error : String
  deriving Repr, DecidableEq

/-- The remote world UpdateIP runs against: whether
cloudflare.NewWithAPIToken fails for an account, the per-attempt zone
lookup results per zone name, and the per-attempt record API behaviour
per (zoneID, full domain). -/
structure DnsEnv where
  newClientErr : CloudflareAccount → Option String
  zoneCall : String → Nat → Except String String
  recordEnv : String → String → Nat → RecordAPIEnv

/-- The fully-qualified name UpdateIP computes for a record entry:
"@" and "" map to the bare zone name, anything else is prefixed. -/
def fullDomainOf (record zoneName : String) : String :=
  if record != "@" && record != "" then record ++ "." ++ zoneName else zoneName

/-- The per-record loop inside a zone: each record gets exactly one
audit entry — success "" when the retry wrapper returns nil (update,
create or matching-content skip alike), failure with the error text
when retries are exhausted.  The zone's 60s context is shared, so each
record's retries start from the budget its predecessors left. -/
def processRecords (env : DnsEnv) (zoneID accountName newIP zoneName : String) :
    List String → Nat → List DNSUpdateEntry
  | [], _ => []
  | record :: rest, budget =>
      let fd := fullDomainOf record zoneName
      let ro := CloudflareUpdater.updateRecordWithRetry (env.recordEnv zoneID fd)
        fd newIP budget
      let entry : DNSUpdateEntry := match ro.result with
        | .error e => ⟨accountName, newIP, "A", fd, false, e⟩
        | .ok _ => ⟨accountName, newIP, "A", fd, true, ""⟩
      entry :: processRecords env zoneID accountName newIP zoneName rest
        (budget - ro.waits.sum)

/-- One zone's closure in UpdateIP: resolve the zone id (retried, under
the fresh 60s context); on failure log and return — none of the zone's
records get an audit entry; on success reconcile every record. -/
def processZone (env : DnsEnv) (accountName newIP : String) (zone : Zone) :
    List DNSUpdateEntry :=
  let zr := CloudflareUpdater.getZoneIDWithRetry (env.zoneCall zone.zoneName)
    zoneBudgetS
  match zr.result with
  | .error _ => []
  | .ok zoneID =>
      processRecords env zoneID accountName newIP zone.zoneName zone.records
        (zoneBudgetS - zr.waits.sum)

/-- CloudflareUpdater.UpdateIP: for each account, skip silently on an
empty token, log and continue when the client cannot be built, then
process every zone.  Its only return statement is the final return nil,
mirrored by the constant none second component. -/
def CloudflareUpdater.UpdateIP (env : DnsEnv)
    (accounts : List CloudflareAccount) (newIP : String) :
    List DNSUpdateEntry × Option String :=
  let entries := accounts.flatMap (fun account =>
    if account.apiToken == "" then []
    else
      match env.newClientErr account with
      | some _ => []
      | none => account.zones.flatMap (fun zone =>
          processZone env account.name newIP zone))
  (entries, none)

/-! ## Event hub (server/websocket.go) -/

/-- A broadcast message: Type plus an opaque payload. -/
structure WSMessage where
  type : String
  data : String
  deriving Repr, DecidableEq

/-- Each client's send channel is make(chan WSMessage, 256). -/
def clientSendCap : Nat := 256

/-- One registered client: an identity and its pending outbound queue. -/
structure Client where
  id : Nat
  send : List WSMessage
  deriving Repr, DecidableEq

/-- The broadcast case of Hub.Run: for every registered client, select
client.send <- message with a default that closes the channel and
deletes the client — a client with queue room gets the message
appended, a saturated one is removed from the registry (its channel
closed). -/
def Hub.broadcastStep (clients : List Client) (message : WSMessage) :
    List Client :=
  clients.filterMap (fun client =>
    if client.send.length < clientSendCap then
      some { client with send := client.send ++ [message] }
    else
      none)

/-- Hub.Broadcast: select { case h.broadcast <- msg: default: } on the
unbuffered dispatch channel — hand the message to the dispatch loop
when it is ready to receive, drop it otherwise; the producer never
blocks either way. -/
def Hub.Broadcast (dispatcherReady : Bool) (msg : WSMessage) :
    Option WSMessage :=
  if dispatcherReady then some msg else none

/-! ## Helper lemmas -/

/-- Unrolls DynamicProvider.getIPLoop across a prefix of providers none
of which yields a success, landing on the first successful one. -/
theorem DynamicProvider.getIPLoop_first_success
    (discover : IPProviderConfig → DiscoverResult)
    (p : IPProviderConfig) (post : List IPProviderConfig)
    (hen : p.enabled = true) (hk : knownKind p.type = true)
    (hok : ((discover p).err.isNone && ((discover p).ip != "")) = true)
    (pre : List IPProviderConfig)
    (hpre : ∀ q ∈ pre, q.enabled = false ∨ knownKind q.type = false ∨
      ((discover q).err.isNone && ((discover q).ip != "")) = false) :
    ∀ errors, DynamicProvider.getIPLoop discover (pre ++ p :: post) errors =
      .success (discover p).ip
        (if (discover p).source == "" then p.type else (discover p).source) := by
  induction pre with
  | nil =>
      intro errors
      simp [DynamicProvider.getIPLoop, hen, hk, hok]
  | cons q rest ih =>
      intro errors
      have hq := hpre q (List.mem_cons_self q rest)
      have htail : ∀ r ∈ rest, r.enabled = false ∨ knownKind r.type = false ∨
          ((discover r).err.isNone && ((discover r).ip != "")) = false :=
        fun r hr => hpre r (List.mem_cons_of_mem q hr)
      rcases hq with hq | hq | hq
      · simpa [DynamicProvider.getIPLoop, hq] using ih htail errors
      · cases he : q.enabled with
        | false => simpa [DynamicProvider.getIPLoop, he] using ih htail errors
        | true => simpa [DynamicProvider.getIPLoop, he, hq] using ih htail errors
      · cases he : q.enabled with
        | false => simpa [DynamicProvider.getIPLoop, he] using ih htail errors
        | true =>
            cases hkq : knownKind q.type with
            | false => simpa [DynamicProvider.getIPLoop, he, hkq] using ih htail errors
            | true =>
                cases herr : (discover q).err with
                | some msg =>
                    simpa [DynamicProvider.getIPLoop, he, hkq, hq, herr]
                      using ih htail (errors ++ [labeledError q.type msg])
                | none =>
                    have hip : (discover q).ip = "" := by simpa [herr] using hq
                    simpa [DynamicProvider.getIPLoop, he, hkq, herr, hip]
                      using ih htail errors

/-- Unrolls DynamicProvider.getIPLoop when every attempted provider
errors: the accumulator ends as errors ++ attemptErrors. -/
theorem DynamicProvider.getIPLoop_all_fail
    (discover : IPProviderConfig → DiscoverResult) :
    ∀ (providers : List IPProviderConfig),
      (∀ q ∈ providers, q.enabled = true → knownKind q.type = true →
        ((discover q).err).isSome = true) →
      ∀ errors, DynamicProvider.getIPLoop discover providers errors =
        if (errors ++ attemptErrors discover providers).length > 0 then
          .allFailed (errors ++ attemptErrors discover providers)
        else .noProviderEnabled := by
  intro providers
  induction providers with
  | nil =>
      intro _ errors
      simp [DynamicProvider.getIPLoop, attemptErrors]
  | cons q rest ih =>
      intro h errors
      have hq := h q (List.mem_cons_self q rest)
      have htail : ∀ r ∈ rest, r.enabled = true → knownKind r.type = true →
          ((discover r).err).isSome = true :=
        fun r hr => h r (List.mem_cons_of_mem q hr)
      cases he : q.enabled with
      | false =>
          have : attemptErrors discover (q :: rest) = attemptErrors discover rest := by
            simp [attemptErrors, List.filter_cons, he]
          rw [this] at *
          simpa [DynamicProvider.getIPLoop, he] using ih htail errors
      | true =>
          cases hkq : knownKind q.type with
          | false =>
              have : attemptErrors discover (q :: rest) = attemptErrors discover rest := by
                simp [attemptErrors, List.filter_cons, he, hkq]
              rw [this]
              simpa [DynamicProvider.getIPLoop, he, hkq] using ih htail errors
          | true =>
              obtain ⟨msg, hmsg⟩ := Option.isSome_iff_exists.mp (hq he hkq)
              have hae : attemptErrors discover (q :: rest) =
                  labeledError q.type msg :: attemptErrors discover rest := by
                simp [attemptErrors, List.filter_cons, he, hkq, hmsg]
              rw [hae]
              have hcond : ((discover q).err.isNone && ((discover q).ip != "")) = false := by
                simp [hmsg]
              have := ih htail (errors ++ [labeledError q.type msg])
              simpa [DynamicProvider.getIPLoop, he, hkq, hcond, hmsg] using this

/-- First attempt succeeds: no wait happens. -/
theorem retryGo_zero_ok {α : Type} (call : Nat → Except String α) {v : α}
    (hc : call 0 = .ok v) (fuel backoff budget : Nat) (waits : List Nat)
    (lastErr : String) :
    retryGo call 0 (fuel + 1) backoff budget waits lastErr =
      ⟨.ok v, waits.reverse, false⟩ := by
  simp [retryGo, hc]

/-- First attempt fails: recurse into the first retry. -/
theorem retryGo_zero_err {α : Type} (call : Nat → Except String α) {e : String}
    (hc : call 0 = .error e) (fuel backoff budget : Nat) (waits : List Nat)
    (lastErr : String) :
    retryGo call 0 (fuel + 1) backoff budget waits lastErr =
      retryGo call 1 fuel backoff budget waits e := by
  simp [retryGo, hc]

/-- A retry whose backoff the remaining budget cannot cover is
abandoned with the context's error. -/
theorem retryGo_pos_abort {α : Type} (call : Nat → Except String α)
    {attempt : Nat} (ha : attempt ≠ 0) {backoff budget : Nat}
    (hb : budget < backoff) (fuel : Nat) (waits : List Nat) (lastErr : String) :
    retryGo call attempt (fuel + 1) backoff budget waits lastErr =
      ⟨.error "context deadline exceeded", waits.reverse, true⟩ := by
  have ha2 : (attempt == 0) = false := by simpa using ha
  simp [retryGo, ha2, hb]

/-- A waited-out retry that succeeds records its backoff wait. -/
theorem retryGo_pos_ok {α : Type} (call : Nat → Except String α)
    {attempt : Nat} (ha : attempt ≠ 0) {backoff budget : Nat}
    (hb : ¬budget < backoff) {v : α} (hc : call attempt = .ok v)
    (fuel : Nat) (waits : List Nat) (lastErr : String) :
    retryGo call attempt (fuel + 1) backoff budget waits lastErr =
      ⟨.ok v, (backoff :: waits).reverse, false⟩ := by
  have ha2 : (attempt == 0) = false := by simpa using ha
  simp [retryGo, ha2, hb, hc]

/-- A waited-out retry that fails doubles the backoff (capped),
deducts the wait from the budget and recurses. -/
theorem retryGo_pos_err {α : Type} (call : Nat → Except String α)
    {attempt : Nat} (ha : attempt ≠ 0) {backoff budget : Nat}
    (hb : ¬budget < backoff) {e : String} (hc : call attempt = .error e)
    (fuel : Nat) (waits : List Nat) (lastErr : String) :
    retryGo call attempt (fuel + 1) backoff budget waits lastErr =
      retryGo call (attempt + 1) fuel (min (backoff * 2) maxBackoffS)
        (budget - backoff) (backoff :: waits) e := by
  have ha2 : (attempt == 0) = false := by simpa using ha
  simp [retryGo, ha2, hb, hc]

/-- Out of attempts: the wrapped final error. -/
theorem retryGo_fuel_zero {α : Type} (call : Nat → Except String α)
    (attempt backoff budget : Nat) (waits : List Nat) (lastErr : String) :
    retryGo call attempt 0 backoff budget waits lastErr =
      ⟨.error ("重试 " ++ toString maxRetriesN ++ " 次后仍失败: " ++ lastErr),
       waits.reverse, false⟩ := by
  simp [retryGo]

/-- Master case analysis of one retry-wrapper run: whatever the call
results and the budget, the completed waits are a prefix of 1s, 2s, 4s
and a deadline abort happens exactly when the remaining budget cannot
cover the next backoff. -/
theorem retryGo_waits_spec {α : Type} (call : Nat → Except String α)
    (budget : Nat) :
    retrySpec (retryGo call 0 (maxRetriesN + 1) initialBackoffS budget [] "")
      budget := by
  rcases h0 : call 0 with e0 | v0
  · -- first attempt fails
    have s0 : retryGo call 0 (maxRetriesN + 1) initialBackoffS budget [] "" =
        retryGo call 1 maxRetriesN initialBackoffS budget [] e0 :=
      retryGo_zero_err call h0 _ _ _ _ _
    rw [s0]
    by_cases hb1 : budget < initialBackoffS
    · have s1 : retryGo call 1 maxRetriesN initialBackoffS budget [] e0 =
          ⟨.error "context deadline exceeded", List.reverse [], true⟩ :=
        retryGo_pos_abort call one_ne_zero hb1 _ _ _
      rw [s1]
      simp only [initialBackoffS] at hb1
      simp [retrySpec, initialBackoffS, maxBackoffS, maxRetriesN]
      omega
    · rcases h1 : call 1 with e1 | v1
      · -- second attempt fails
        have s1 : retryGo call 1 maxRetriesN initialBackoffS budget [] e0 =
            retryGo call 2 (maxRetriesN - 1) (min (initialBackoffS * 2) maxBackoffS)
              (budget - initialBackoffS) [initialBackoffS] e1 :=
          retryGo_pos_err call one_ne_zero hb1 h1 _ _ _
        rw [s1]
        by_cases hb2 : budget - initialBackoffS < min (initialBackoffS * 2) maxBackoffS
        · have s2 : retryGo call 2 (maxRetriesN - 1)
              (min (initialBackoffS * 2) maxBackoffS)
              (budget - initialBackoffS) [initialBackoffS] e1 =
              ⟨.error "context deadline exceeded",
               List.reverse [initialBackoffS], true⟩ :=
            retryGo_pos_abort call two_ne_zero hb2 _ _ _
          rw [s2]
          simp only [initialBackoffS, maxBackoffS] at hb1 hb2
          simp [retrySpec, initialBackoffS, maxBackoffS, maxRetriesN]
          omega
        · rcases h2 : call 2 with e2 | v2
          · -- third attempt fails
            have s2 : retryGo call 2 (maxRetriesN - 1)
                (min (initialBackoffS * 2) maxBackoffS)
                (budget - initialBackoffS) [initialBackoffS] e1 =
                retryGo call 3 (maxRetriesN - 2)
                  (min (min (initialBackoffS * 2) maxBackoffS * 2) maxBackoffS)
                  (budget - initialBackoffS - min (initialBackoffS * 2) maxBackoffS)
                  [min (initialBackoffS * 2) maxBackoffS, initialBackoffS] e2 :=
              retryGo_pos_err call two_ne_zero hb2 h2 _ _ _
            rw [s2]
            by_cases hb3 : budget - initialBackoffS -
                min (initialBackoffS * 2) maxBackoffS <
                min (min (initialBackoffS * 2) maxBackoffS * 2) maxBackoffS
            · have s3 : retryGo call 3 (maxRetriesN - 2)
                  (min (min (initialBackoffS * 2) maxBackoffS * 2) maxBackoffS)
                  (budget - initialBackoffS - min (initialBackoffS * 2) maxBackoffS)
                  [min (initialBackoffS * 2) maxBackoffS, initialBackoffS] e2 =
                  ⟨.error "context deadline exceeded",
                   List.reverse [min (initialBackoffS * 2) maxBackoffS,
                     initialBackoffS], true⟩ :=
                retryGo_pos_abort call three_ne_zero hb3 _ _ _
              rw [s3]
              simp only [initialBackoffS, maxBackoffS] at hb1 hb2 hb3
              simp [retrySpec, initialBackoffS, maxBackoffS, maxRetriesN]
              omega
            · rcases h3 : call 3 with e3 | v3
              · -- fourth attempt fails: out of fuel afterwards
                have s3 : retryGo call 3 (maxRetriesN - 2)
                    (min (min (initialBackoffS * 2) maxBackoffS * 2) maxBackoffS)
                    (budget - initialBackoffS - min (initialBackoffS * 2) maxBackoffS)
                    [min (initialBackoffS * 2) maxBackoffS, initialBackoffS] e2 =
                    retryGo call 4 0
                      (min (min (min (initialBackoffS * 2) maxBackoffS * 2)
                        maxBackoffS * 2) maxBackoffS)
                      (budget - initialBackoffS - min (initialBackoffS * 2) maxBackoffS -
                        min (min (initialBackoffS * 2) maxBackoffS * 2) maxBackoffS)
                      [min (min (initialBackoffS * 2) maxBackoffS * 2) maxBackoffS,
                       min (initialBackoffS * 2) maxBackoffS, initialBackoffS] e3 :=
                  retryGo_pos_err call three_ne_zero hb3 h3 _ _ _
                rw [s3, retryGo_fuel_zero]
                simp [retrySpec, initialBackoffS, maxBackoffS, maxRetriesN]
              · have s3 : retryGo call 3 (maxRetriesN - 2)
                    (min (min (initialBackoffS * 2) maxBackoffS * 2) maxBackoffS)
                    (budget - initialBackoffS - min (initialBackoffS * 2) maxBackoffS)
                    [min (initialBackoffS * 2) maxBackoffS, initialBackoffS] e2 =
                    ⟨.ok v3,
                     List.reverse
                       [min (min (initialBackoffS * 2) maxBackoffS * 2) maxBackoffS,
                        min (initialBackoffS * 2) maxBackoffS, initialBackoffS],
                     false⟩ :=
                  retryGo_pos_ok call three_ne_zero hb3 h3 _ _ _
                rw [s3]
                simp [retrySpec, initialBackoffS, maxBackoffS, maxRetriesN]
          · have s2 : retryGo call 2 (maxRetriesN - 1)
                (min (initialBackoffS * 2) maxBackoffS)
                (budget - initialBackoffS) [initialBackoffS] e1 =
                ⟨.ok v2,
                 List.reverse [min (initialBackoffS * 2) maxBackoffS,
                   initialBackoffS], false⟩ :=
              retryGo_pos_ok call two_ne_zero hb2 h2 _ _ _
            rw [s2]
            simp [retrySpec, initialBackoffS, maxBackoffS, maxRetriesN]
      · have s1 : retryGo call 1 maxRetriesN initialBackoffS budget [] e0 =
            ⟨.ok v1, List.reverse [initialBackoffS], false⟩ :=
          retryGo_pos_ok call one_ne_zero hb1 h1 _ _ _
        rw [s1]
        simp [retrySpec, initialBackoffS, maxBackoffS, maxRetriesN]
  · have s0 : retryGo call 0 (maxRetriesN + 1) initialBackoffS budget [] "" =
        ⟨.ok v0, List.reverse [], false⟩ :=
      retryGo_zero_ok call h0 _ _ _ _ _
    rw [s0]
    simp [retrySpec, initialBackoffS, maxBackoffS, maxRetriesN]

/-! ## Claim theorems -/

/-- Claim C2: DynamicProvider.GetIP tries enabled providers in declaration
order, skipping disabled and unrecognized kinds, and returns the first
result whose error is nil and whose address is non-empty, substituting
the configured kind as the source label when the provider reports an
empty one; providers after that first success (post, unconstrained) are
never consulted. -/
theorem c2_selector_first_success
    (discover : IPProviderConfig → DiscoverResult)
    (pre : List IPProviderConfig) (p : IPProviderConfig)
    (post : List IPProviderConfig)
    (hpre : ∀ q ∈ pre, q.enabled = false ∨ knownKind q.type = false ∨
      ((discover q).err.isNone && ((discover q).ip != "")) = false)
    (hen : p.enabled = true) (hk : knownKind p.type = true)
    (hok : ((discover p).err.isNone && ((discover p).ip != "")) = true) :
    DynamicProvider.GetIP discover (pre ++ p :: post) =
      .success (discover p).ip
        (if (discover p).source == "" then p.type else (discover p).source) :=
  DynamicProvider.getIPLoop_first_success discover p post hen hk hok pre hpre []

/-- Witness for C2: a disabled provider, an unrecognized kind and a
failing router_ssh are passed over; the enabled stun provider answers
198.51.100.7 with an empty label, so the configured kind is
substituted; the trailing provider is never consulted. -/
theorem c2_selector_first_success_witness :
    DynamicProvider.GetIP
      (fun q => if q.type == "stun" then ⟨"198.51.100.7", "", none⟩
                else ⟨"", "", some "boom"⟩)
      [⟨"stun", false⟩, ⟨"http", true⟩, ⟨"router_ssh", true⟩,
       ⟨"stun", true⟩, ⟨"router_ssh", true⟩] =
      .success "198.51.100.7" "stun" := by
  have h := c2_selector_first_success
    (fun q => if q.type == "stun" then ⟨"198.51.100.7", "", none⟩
              else ⟨"", "", some "boom"⟩)
    [⟨"stun", false⟩, ⟨"http", true⟩, ⟨"router_ssh", true⟩]
    ⟨"stun", true⟩ [⟨"router_ssh", true⟩]
    (by decide) (by decide) (by decide) (by decide)
  exact h.trans (by decide)

/-- Claim C3 counterexample: a provider of unrecognized kind "http" is
enabled, yet DynamicProvider.GetIP returns the distinct "no provider
enabled" failure, so that failure is not returned exactly when no
provider is enabled. -/
theorem c3_counterexample :
    DynamicProvider.GetIP (fun _ => ⟨"", "", some "boom"⟩)
      [⟨"http", true⟩] = .noProviderEnabled ∧
    (⟨"http", true⟩ : IPProviderConfig).enabled = true := by
  decide

/-- Claim C3 (amended): if every attempted provider (enabled, recognized
kind) errors, the selector returns the aggregate error listing one
labelled failure per attempted provider in attempt order when at least
one provider was attempted, and the distinct "no provider enabled"
failure exactly when the attempted-failure list is empty — which
happens not only when no provider is enabled but also when enabled
providers all have unrecognized kinds. -/
theorem c3_aggregate_errors
    (discover : IPProviderConfig → DiscoverResult)
    (providers : List IPProviderConfig)
    (h : ∀ q ∈ providers, q.enabled = true → knownKind q.type = true →
      ((discover q).err).isSome = true) :
    (attemptErrors discover providers = [] →
      DynamicProvider.GetIP discover providers = .noProviderEnabled) ∧
    (attemptErrors discover providers ≠ [] →
      DynamicProvider.GetIP discover providers =
        .allFailed (attemptErrors discover providers)) := by
  have hloop := DynamicProvider.getIPLoop_all_fail discover providers h []
  constructor
  · intro hae
    rw [hae] at hloop
    simpa [DynamicProvider.GetIP] using hloop
  · intro hae
    have hlen : 0 < (attemptErrors discover providers).length :=
      List.length_pos.mpr hae
    rw [DynamicProvider.GetIP, hloop]
    simp [hlen]

/-- Witness for C3: stun errors, router_ssh is disabled, http is an
unrecognized kind; the aggregate error lists exactly the one labelled
stun failure. -/
theorem c3_aggregate_errors_witness :
    DynamicProvider.GetIP (fun _ => ⟨"", "", some "boom"⟩)
      [⟨"stun", true⟩, ⟨"router_ssh", false⟩, ⟨"http", true⟩] =
      .allFailed ["[stun] 获取失败: boom"] := by
  have h := (c3_aggregate_errors (fun _ => ⟨"", "", some "boom"⟩)
    [⟨"stun", true⟩, ⟨"router_ssh", false⟩, ⟨"http", true⟩]
    (by decide)).2 (by decide)
  exact h.trans (by decide)

/-- Claim C7 counterexample: with stun enabled first (and answering, so STUN
is the active provider/source) and router_ssh also enabled, a
configured 5-second interval is used as-is, while the claimed
max(configured, minimum-for-active-kind) with the reflection variant's
30s minimum would give 30: the effective interval is keyed to any
enabled introspection kind, not to the active provider's kind. -/
theorem c7_counterexample :
    DynamicProvider.GetIP
      (fun q => if q.type == "stun" then ⟨"198.51.100.7", "", none⟩
                else ⟨"", "", some "unreachable"⟩)
      [⟨"stun", true⟩, ⟨"router_ssh", true⟩] = .success "198.51.100.7" "stun" ∧
    checkIntervalSeconds (some 5) [⟨"stun", true⟩, ⟨"router_ssh", true⟩] = 5 ∧
    specEffectiveInterval 5 "stun" = 30 ∧ (5 : Nat) ≠ 30 := by
  decide

/-- Claim C7 (amended): when the configured check interval parses, the
effective interval is max(configured, minInterval) where minInterval is
1s as soon as any enabled provider has an introspection kind
(router_ssh or interface) and 30s otherwise; when it is absent or
unparsable the 5-minute default is used unclamped. -/
theorem c7_effective_interval (d : Nat) (providers : List IPProviderConfig) :
    checkIntervalSeconds (some d) providers = max d (minIntervalFor providers) ∧
    checkIntervalSeconds none providers = 300 := by
  constructor
  · rw [checkIntervalSeconds]
    split <;> omega
  · rfl

/-- Claim C8: a configuration-change signal delivered at time t into the
scheduler's wait ends the wait at t, before the computed interval
elapses; the signal channel has exactly one slot, a send never blocks
(signalConfigUpdate is total: it returns the new pending count for
every state), a signal into the empty channel is pended, and a second
signal while one is pending leaves the state unchanged (coalesced). -/
theorem c8_config_signal (interval t : Nat) (h : t < interval) :
    waitingPhase interval (some t) = t ∧
    waitingPhase interval (some t) < interval ∧
    configUpdateChanCap = 1 ∧
    signalConfigUpdate 0 = 1 ∧
    signalConfigUpdate 1 = 1 ∧
    (∀ pending, pending ≤ configUpdateChanCap →
      signalConfigUpdate pending ≤ configUpdateChanCap) := by
  refine ⟨?_, ?_, rfl, rfl, rfl, ?_⟩
  · simp [waitingPhase, h]
  · simp [waitingPhase, h]
  · intro pending hp
    rw [signalConfigUpdate]
    split <;> omega

/-- Witness for C8 at interval 300s, signal at 7s. -/
theorem c8_config_signal_witness :
    waitingPhase 300 (some 7) = 7 ∧
    waitingPhase 300 (some 7) < 300 ∧
    configUpdateChanCap = 1 ∧
    signalConfigUpdate 0 = 1 ∧
    signalConfigUpdate 1 = 1 ∧
    (∀ pending, pending ≤ configUpdateChanCap →
      signalConfigUpdate pending ≤ configUpdateChanCap) :=
  c8_config_signal 300 7 (by decide)

/-- Claim C1: on a first-ever observation (lastIP = "", discovery succeeds
with 203.0.113.1 from stun) the monitorIP change branch records the
check, refreshes address and source, appends the history entry, invokes
the DNS updater and updates the remembered last address — but it never
broadcasts the change: no broadcastIPChange effect occurs, although
Server.BroadcastIPChange exists for exactly this purpose and the
repository's backend specification shows the loop calling it. -/
theorem c1_change_branch_never_broadcasts :
    monitorCycle (fun _ => none) (.success "203.0.113.1" "stun") "" =
      ([.setLastCheck, .setCurrentIP "203.0.113.1", .setCurrentSource "stun",
        .addIPHistory "203.0.113.1" "v4" "stun", .updateDNS "203.0.113.1"],
       "203.0.113.1") ∧
    MonitorAction.broadcastIPChange "203.0.113.1" "stun" ∉
      (monitorCycle (fun _ => none) (.success "203.0.113.1" "stun") "").1 := by
  decide

/-- Claim C4 counterexample: the lookup returns two A records and the second
one already holds the target address, yet updateRecord issues an update
call (it only inspects records[0]), so "at least one existing record
already equals the target" does not suffice to suppress the mutation. -/
theorem c4_counterexample :
    (⟨"r2", "203.0.113.2", true⟩ : DNSRecord) ∈
      [(⟨"r1", "203.0.113.9", false⟩ : DNSRecord), ⟨"r2", "203.0.113.2", true⟩] ∧
    (⟨"r2", "203.0.113.2", true⟩ : DNSRecord).content = "203.0.113.2" ∧
    CloudflareUpdater.updateRecord
      ⟨.ok [⟨"r1", "203.0.113.9", false⟩, ⟨"r2", "203.0.113.2", true⟩], none, none⟩
      "example.com" "203.0.113.2" =
      ([.updateRecord "r1" "example.com" "203.0.113.2" false], none) ∧
    ([DNSMutation.updateRecord "r1" "example.com" "203.0.113.2" false] ≠ []) := by
  decide

/-- Claim C4 (amended): when the first record the lookup returns already
holds the target address, updateRecord succeeds with no create or
update call; and running the reconciliation twice in a row against an
otherwise unchanged remote state issues zero mutating calls the second
time, because the first run leaves the first record at the target. -/
theorem c4_skip_and_idempotent :
    (∀ (r : DNSRecord) (rest : List DNSRecord) (domain ip : String)
        (cErr uErr : Option String), r.content = ip →
      CloudflareUpdater.updateRecord ⟨.ok (r :: rest), cErr, uErr⟩ domain ip =
        ([], none)) ∧
    (∀ (records : List DNSRecord) (domain ip newId newId2 : String),
      (applyUpdateRecord (applyUpdateRecord records domain ip newId).2
        domain ip newId2).1 = []) := by
  constructor
  · intro r rest domain ip cErr uErr h
    simp [CloudflareUpdater.updateRecord, h]
  · intro records domain ip newId newId2
    cases records with
    | nil => simp [applyUpdateRecord]
    | cons r rest =>
        by_cases h : r.content == ip
        · simp [applyUpdateRecord, h]
        · simp [applyUpdateRecord, h]

/-- Witness for C4: a matching first record is skipped without a
mutating call, and a second reconciliation after an update mutates
nothing. -/
theorem c4_skip_and_idempotent_witness :
    CloudflareUpdater.updateRecord
      ⟨.ok [⟨"r1", "203.0.113.2", true⟩], none, none⟩
      "example.com" "203.0.113.2" = ([], none) ∧
    (applyUpdateRecord (applyUpdateRecord [⟨"r1", "203.0.113.1", true⟩]
      "example.com" "203.0.113.2" "n1").2 "example.com" "203.0.113.2" "n2").1 = [] :=
  ⟨c4_skip_and_idempotent.1 ⟨"r1", "203.0.113.2", true⟩ [] "example.com"
      "203.0.113.2" none none rfl,
   c4_skip_and_idempotent.2 [⟨"r1", "203.0.113.1", true⟩] "example.com"
      "203.0.113.2" "n1" "n2"⟩

/-- Claim C5 counterexample: a record whose remote content already equals the
target is skipped with no mutating call, yet UpdateIP hands the
dns_updates store a success entry for it — an outcome is recorded,
contradicting "neither a success entry nor a failure entry". -/
theorem c5_counterexample :
    (CloudflareUpdater.UpdateIP
      ⟨fun _ => none, fun _ _ => .ok "zid",
       fun _ _ _ => ⟨.ok [⟨"rid", "203.0.113.1", false⟩], none, none⟩⟩
      [⟨"acct", "tok", [⟨"example.com", ["@"]⟩]⟩] "203.0.113.1").1 =
      [⟨"acct", "203.0.113.1", "A", "example.com", true, ""⟩] ∧
    CloudflareUpdater.updateRecord
      ⟨.ok [⟨"rid", "203.0.113.1", false⟩], none, none⟩
      "example.com" "203.0.113.1" = ([], none) := by
  decide

/-- Claim C5 (amended): a record skipped because its remote content already
matches the target still gets exactly one outcome handed to the audit
sink, namely a success entry (success = true, empty error),
indistinguishable from an actual update; no failure entry is recorded
and the zone's remaining budget is untouched (no backoff wait ran). -/
theorem c5_skip_records_success
    (env : DnsEnv) (zoneID accountName newIP zoneName record : String)
    (rest : List String) (budget : Nat) (r : DNSRecord) (rs : List DNSRecord)
    (hlist : (env.recordEnv zoneID (fullDomainOf record zoneName) 0).listResult =
      .ok (r :: rs))
    (hmatch : r.content = newIP) :
    processRecords env zoneID accountName newIP zoneName (record :: rest) budget =
      ⟨accountName, newIP, "A", fullDomainOf record zoneName, true, ""⟩ ::
        processRecords env zoneID accountName newIP zoneName rest budget := by
  have hro : CloudflareUpdater.updateRecordWithRetry
      (env.recordEnv zoneID (fullDomainOf record zoneName))
      (fullDomainOf record zoneName) newIP budget =
      ⟨.ok [], List.reverse [], false⟩ :=
    retryGo_zero_ok _ (by simp [CloudflareUpdater.updateRecord, hlist, hmatch])
      _ _ _ _ _
  simp [processRecords, hro]

/-- Witness for C5: one matching record at example.com yields exactly
the success audit entry and leaves the rest of the list untouched. -/
theorem c5_skip_records_success_witness :
    processRecords
      ⟨fun _ => none, fun _ _ => .ok "zid",
       fun _ _ _ => ⟨.ok [⟨"rid", "203.0.113.1", false⟩], none, none⟩⟩
      "zid" "acct" "203.0.113.1" "example.com" ["@"] 60 =
      [⟨"acct", "203.0.113.1", "A", "example.com", true, ""⟩] := by
  have h := c5_skip_records_success
    ⟨fun _ => none, fun _ _ => .ok "zid",
     fun _ _ _ => ⟨.ok [⟨"rid", "203.0.113.1", false⟩], none, none⟩⟩
    "zid" "acct" "203.0.113.1" "example.com" "@" [] 60
    ⟨"rid", "203.0.113.1", false⟩ [] rfl rfl
  exact h.trans (by decide)

/-- Claim C6: both retried remote calls — the zone-ID lookup and the record
update — make at most maxRetries = 3 additional attempts beyond the
first; the completed backoff waits form a prefix of 1s, 2s, 4s, so they
start at the 1s base, double each step under the 10s cap, stay within
the cap and increase strictly; and a run is aborted with the context's
error exactly when the remaining budget cannot cover the next wait. -/
theorem c6_retry_backoff (zoneCall : Nat → Except String String)
    (envs : Nat → RecordAPIEnv) (domain ip : String) (budget1 budget2 : Nat) :
    retrySpec (CloudflareUpdater.getZoneIDWithRetry zoneCall budget1) budget1 ∧
    retrySpec (CloudflareUpdater.updateRecordWithRetry envs domain ip budget2)
      budget2 :=
  ⟨retryGo_waits_spec _ budget1, retryGo_waits_spec _ budget2⟩

/-- Witness for C6 with always-failing calls under a 60s budget. -/
theorem c6_retry_backoff_witness :
    retrySpec (CloudflareUpdater.getZoneIDWithRetry (fun _ => .error "x") 60) 60 ∧
    retrySpec (CloudflareUpdater.updateRecordWithRetry
      (fun _ => ⟨.error "down", none, none⟩) "example.com" "203.0.113.2" 60) 60 :=
  c6_retry_backoff (fun _ => .error "x") (fun _ => ⟨.error "down", none, none⟩)
    "example.com" "203.0.113.2" 60 60

/-- Claim C9: the broadcast case of Hub.Run removes exactly the subscribers
whose bounded queue is saturated (closing their channel) and appends
the event to every other subscriber's queue — the result is the
saturation-filtered registry with the message enqueued for each kept
client; and Hub.Broadcast never blocks the producer: for every
dispatcher state it immediately returns, either handing the message
over or dropping it. -/
theorem c9_hub_isolation (clients : List Client) (message : WSMessage) :
    Hub.broadcastStep clients message =
      (clients.filter (fun c => c.send.length < clientSendCap)).map
        (fun c => { c with send := c.send ++ [message] }) ∧
    (∀ ready msg, Hub.Broadcast ready msg = some msg ∨
      Hub.Broadcast ready msg = none) := by
  constructor
  · induction clients with
    | nil => simp [Hub.broadcastStep]
    | cons c rest ih =>
        by_cases hc : c.send.length < clientSendCap
        · simp [Hub.broadcastStep, List.filter_cons, hc] at ih ⊢
          exact ih
        · simp [Hub.broadcastStep, List.filter_cons, hc] at ih ⊢
          exact ih
  · intro ready msg
    rw [Hub.Broadcast]
    split
    · exact Or.inl rfl
    · exact Or.inr rfl

/-- Claim C10: CloudflareUpdater.UpdateIP returns nil on every execution path
— whatever the remote environment, account list and address, its error
component is none — and therefore the monitorIP branch that logs a DNS
update failure can never run: no cycle ever emits a logDNSFailure
effect when its DNS step is UpdateIP. -/
theorem c10_updateip_always_nil (env : DnsEnv)
    (accounts : List CloudflareAccount) (newIP : String) :
    (CloudflareUpdater.UpdateIP env accounts newIP).2 = none ∧
    (∀ res lastIP e, MonitorAction.logDNSFailure e ∉
      (monitorCycle (fun ip => (CloudflareUpdater.UpdateIP env accounts ip).2)
        res lastIP).1) := by
  refine ⟨rfl, ?_⟩
  have hfn : (fun ip => (CloudflareUpdater.UpdateIP env accounts ip).2) =
      (fun _ => (none : Option String)) := rfl
  rw [hfn]
  intro res lastIP e h
  cases res with
  | success ip src =>
      by_cases hip : ip != lastIP
      · simp [monitorCycle, GetIPResult.errString, hip] at h
      · simp [monitorCycle, GetIPResult.errString, hip] at h
  | allFailed errors =>
      simp [monitorCycle, GetIPResult.errString] at h
  | noProviderEnabled =>
      simp [monitorCycle, GetIPResult.errString] at h

end IDRD
